import Mathlib

/-!
Verification of the annotated learning file `src/main.rs` (a textbook chapter
on sharing versus mutation).  The executable part of `main` prints a fixed
greeting, builds a vector `wave` with a hand-written `extend` function and
checks two `assert_eq!` equalities.  Two further snippets define a `File`
record with a `clone_from` operation (the self-assignment example) and
several statements that the borrow checker rejects.

The element type of the vectors is `f64` in the source, but every element
literal is one of `0.0`, `1.0`, `-1.0` and the program only moves and
compares elements, never computes on them, so the integers `0`, `1`, `-1`
model them exactly.
-/

/-- An observable step of `main`: a console print (`println!`) or an embedded
equality assertion (`assert_eq!`), recorded with its truth value. -/
inductive Event where
  | print (s : String)
  | assert (b : Bool)
  deriving DecidableEq

/-- `vec.push(*elt)`: appends one element at the end of the vector. -/
def push (vec : List Int) (elt : Int) : List Int :=
  vec ++ [elt]

/-- `fn extend(vec: &mut Vec<f64>, slice: &[f64])` from `main.rs`:
`for elt in slice { vec.push(*elt); }` — pushes each element of `slice`
onto `vec`, in order. -/
def extend (vec : List Int) (slice : List Int) : List Int :=
  slice.foldl push vec

/-- `let head = vec![0.0, 1.0];` -/
def head : List Int := [0, 1]

/-- `let tail = [0.0, -1.0];` -/
def tail : List Int := [0, -1]

/-- `wave` after `let mut wave = Vec::new(); extend(&mut wave, &head);` -/
def wave1 : List Int := extend [] head

/-- `wave` after the further `extend(&mut wave, &tail);` -/
def wave2 : List Int := extend wave1 tail

/-- `wave` after the attempted self-append `extend(&mut wave, &wave);`,
under value semantics (the slice argument is the vector's current
contents). -/
def wave3 : List Int := extend wave2 wave2

/-- `assert_eq!(a, b)` on two vectors, recorded as an event. -/
def assert_eq (a b : List Int) : Event :=
  Event.assert (decide (a = b))

/-- The sequence of observable steps of `main`'s embedded executable
statements: the greeting, then the two `assert_eq!` checks on `wave`. -/
def main_events : List Event :=
  [ Event.print "Hello, world!",
    assert_eq wave2 [0, 1, 0, -1],
    assert_eq wave3 [0, 1, 0, -1, 0, 1, 0, -1] ]

/-- The console lines produced by a list of events. -/
def prints : List Event → List String
  | [] => []
  | Event.print s :: rest => s :: prints rest
  | Event.assert _ :: rest => prints rest

/-- `true` iff every assertion among the events holds. -/
def assertsOk : List Event → Bool
  | [] => true
  | Event.print _ :: rest => assertsOk rest
  | Event.assert b :: rest => b && assertsOk rest

/-- Everything a run of the program could in principle observe from the
outside: standard input and a thread interleaving.  `main` reads no input
and spawns no threads, so its embedding consults none of these fields. -/
structure Env where
  stdin : List String
  schedule : List Nat

/-- The locals `main` computes and the events it emits. -/
structure RunResult where
  events : List Event
  headVal : List Int
  tailVal : List Int
  waveVal : List Int
  deriving DecidableEq

/-- A run of `main` in an environment: the source contains no input
statement, thread spawn or other environment access, so the result is the
same fixed record whatever the environment holds. -/
def main_run (_ : Env) : RunResult :=
  { events := main_events, headVal := head, tailVal := tail, waveVal := wave3 }

/-- The operating-system view of file descriptors: the set of currently
open descriptors and the next fresh descriptor number.  `close` and `dup`
are the POSIX calls the snippet invokes; they are not defined in the
repository, so they are given their standard meaning: `close` removes a
descriptor, `dup` duplicates an open descriptor into a fresh one and fails
(returning `-1`) on a closed one. -/
structure OS where
  openFds : List Int
  nextFd : Int
  deriving DecidableEq

/-- `close(fd)`: the descriptor is no longer open afterwards. -/
def close (os : OS) (fd : Int) : OS :=
  { os with openFds := os.openFds.filter (fun d => d != fd) }

/-- `dup(fd)`: returns a fresh duplicate of an open descriptor, or `-1`
when `fd` is not open. -/
def dup (os : OS) (fd : Int) : OS × Int :=
  if fd ∈ os.openFds then
    ({ openFds := os.nextFd :: os.openFds, nextFd := os.nextFd + 1 }, os.nextFd)
  else
    (os, -1)

/-- `struct File { descriptor: i32 }` from `main.rs`. -/
structure File where
  descriptor : Int
  deriving DecidableEq

/-- `fn new_file(d: i32) -> File` from `main.rs`. -/
def new_file (d : Int) : File :=
  { descriptor := d }

/-- A system call issued by `clone_from`, in order. -/
inductive SysCall where
  | close (fd : Int)
  | dup (fd : Int)
  deriving DecidableEq

/-- `fn clone_from(this: &mut File, rhs: &File)` from `main.rs`:
`close(this.descriptor); this.descriptor = dup(rhs.descriptor);`.
The `&mut File` parameter becomes an input/output value; the returned
trace records the system calls in the order the code issues them. -/
def clone_from (this : File) (rhs : File) (os : OS) : OS × File × List SysCall :=
  let os1 := close os this.descriptor
  let r := dup os1 rhs.descriptor
  (r.1, { descriptor := r.2 }, [SysCall.close this.descriptor, SysCall.dup rhs.descriptor])

/-- `clone_from` invoked on two distinct `File` objects, kept as the two
components of a pair: the `&File` parameter is read-only in the source, so
the second component is passed through untouched. -/
def clone_from_pair (p : File × File) (os : OS) : OS × (File × File) × List SysCall :=
  let r := clone_from p.1 p.2 os
  (r.1, (r.2.1, p.2), r.2.2)

/-- Modelled from the spec: the borrow checker is the compiler, not code of
this repository; its rules are quoted in the file's commentary ("Shared
access is read-only access", "Mutable access is exclusive access") and in
the spec's glossary.  A borrow of a place is either shared or mutable. -/
structure Borrow where
  place : String
  isMut : Bool
  deriving DecidableEq

/-- Modelled from the spec: the exclusivity check on the borrows live at
one statement.  A mutable borrow of a place may not overlap any other
borrow of the same place; the diagnostic names the later borrow's kind,
as in the messages quoted in the source's comments. -/
def diagnostic : List Borrow → Option String
  | [] => none
  | b :: rest =>
    match rest.find? (fun c => b.place == c.place && (b.isMut || c.isMut)) with
    | some c =>
      if b.isMut && !c.isMut then
        some ("cannot borrow `" ++ b.place ++ "` as immutable because it is also borrowed as mutable")
      else if !b.isMut && c.isMut then
        some ("cannot borrow `" ++ b.place ++ "` as mutable because it is also borrowed as immutable")
      else
        some ("cannot borrow `" ++ b.place ++ "` as mutable more than once")
    | none => diagnostic rest

/-- The borrows taken by the call `extend(&mut wave, &wave)`: a mutable
borrow of `wave` and, overlapping it, a shared borrow of `wave`. -/
def extend_self_call : List Borrow :=
  [{ place := "wave", isMut := true }, { place := "wave", isMut := false }]

/-- The borrows taken by the call `clone_from(&mut f, &f)`: a mutable
borrow of `f` and, overlapping it, a shared borrow of `f`. -/
def clone_from_self_call : List Borrow :=
  [{ place := "f", isMut := true }, { place := "f", isMut := false }]

/-- `extend` appends: helper fact proved by induction on the slice. -/
theorem extend_eq_append (slice : List Int) :
    ∀ vec, extend vec slice = vec ++ slice := by
  induction slice with
  | nil => intro vec; simp [extend]
  | cons e rest ih =>
    intro vec
    have h1 : extend vec (e :: rest) = extend (vec ++ [e]) rest := rfl
    rw [h1, ih]
    simp

/-- A closed descriptor is not open. -/
theorem mem_close_self (os : OS) (fd : Int) : fd ∉ (close os fd).openFds := by
  simp [close]

/-- `dup` on a descriptor that is not open fails, leaving the state as is
and returning `-1`. -/
theorem dup_closed (os : OS) (fd : Int) (h : fd ∉ os.openFds) :
    dup os fd = (os, -1) := by
  simp [dup, h]

/-- Claim C1: with `wave` holding `[0.0, 1.0, 0.0, -1.0]`, appending the
vector to itself via `extend(&mut wave, &wave)` yields the fixed doubled
sequence `[0.0, 1.0, 0.0, -1.0, 0.0, 1.0, 0.0, -1.0]`, exactly as the
assertion immediately after the call states. -/
theorem extend_wave_self_doubles :
    wave2 = [0, 1, 0, -1] ∧
    extend wave2 wave2 = [0, 1, 0, -1, 0, 1, 0, -1] := by
  constructor <;> rfl

/-- Claim C2: starting from the empty vector, `extend` with
`head = [0.0, 1.0]` and then with `tail = [0.0, -1.0]` leaves `wave`
equal to `[0.0, 1.0, 0.0, -1.0]`. -/
theorem extend_head_tail_builds_wave :
    extend (extend [] head) tail = [0, 1, 0, -1] := by
  rfl

/-- Claim C3: the embedded executable statements of `main` have no runtime
failure: every `assert_eq!` among the emitted events holds, so no
assertion ever fails or panics at run time. -/
theorem main_asserts_never_fail :
    assertsOk main_events = true := by
  rfl

/-- Claim C4: invoking `clone_from(this, rhs)` with `this` and `rhs` the
same `File` (the self-assignment case, with its descriptor open) first
closes `this.descriptor` and then passes that very same, by now closed,
descriptor to `dup`; the `dup` therefore fails and the file's only
descriptor is lost, replaced by the invalid value `-1`. -/
theorem clone_from_self_corrupts (os : OS) (f : File)
    (h : f.descriptor ∈ os.openFds) :
    (clone_from f f os).2.2 = [SysCall.close f.descriptor, SysCall.dup f.descriptor] ∧
    f.descriptor ∉ (close os f.descriptor).openFds ∧
    (clone_from f f os).2.1.descriptor = -1 := by
  refine ⟨rfl, mem_close_self os f.descriptor, ?_⟩
  simp only [clone_from]
  rw [dup_closed _ _ (mem_close_self os f.descriptor)]

/-- Witness for C4 at the concrete state where descriptor 3 is open. -/
theorem clone_from_self_corrupts_witness :
    (clone_from (File.mk 3) (File.mk 3) (OS.mk [3] 4)).2.2 =
      [SysCall.close 3, SysCall.dup 3] ∧
    (3 : Int) ∉ (close (OS.mk [3] 4) 3).openFds ∧
    (clone_from (File.mk 3) (File.mk 3) (OS.mk [3] 4)).2.1.descriptor = -1 :=
  clone_from_self_corrupts (OS.mk [3] 4) (File.mk 3) (by decide)

/-- Claim C5: the only console output of running `main` is the single
fixed greeting; no snippet after it prints anything further. -/
theorem main_prints_only_greeting :
    prints main_events = ["Hello, world!"] := by
  rfl

/-- Claim C6: execution of `main` is deterministic straight-line code: two
runs in any two environments (any standard input, any schedule) compute
identical local values and identical observable events. -/
theorem main_deterministic (env1 env2 : Env) :
    main_run env1 = main_run env2 := by
  rfl

/-- Claim C7: the borrow checker rejects both self-aliasing calls,
`extend(&mut wave, &wave)` and `clone_from(&mut f, &f)`, each with a
diagnostic of the form "cannot borrow as immutable because it is also
borrowed as mutable", so neither statement is part of any run. -/
theorem borrow_check_rejects_self_calls :
    diagnostic extend_self_call =
      some "cannot borrow `wave` as immutable because it is also borrowed as mutable" ∧
    diagnostic clone_from_self_call =
      some "cannot borrow `f` as immutable because it is also borrowed as mutable" := by
  constructor <;> rfl

/-- Claim C8: for every vector and every slice, `extend` keeps the
existing elements in place and appends the slice's elements after them in
order — the result is the concatenation, and its length is the sum of the
lengths. -/
theorem extend_appends (vec slice : List Int) :
    extend vec slice = vec ++ slice ∧
    (extend vec slice).length = vec.length + slice.length := by
  refine ⟨extend_eq_append slice vec, ?_⟩
  rw [extend_eq_append]
  simp

/-- Claim C9: `extend` is a homomorphism for slice concatenation —
extending with `a` and then with `b` equals extending once with `a ++ b`;
extending with the empty slice is the identity. -/
theorem extend_hom (v a b : List Int) :
    extend (extend v a) b = extend v (a ++ b) ∧ extend v [] = v := by
  constructor
  · rw [extend_eq_append, extend_eq_append, extend_eq_append, List.append_assoc]
  · rfl

/-- Claim C10: on two distinct `File` objects, `clone_from` leaves `rhs`
entirely unchanged and modifies only `this.descriptor`, setting it to the
`dup` of `rhs.descriptor` taken after closing the old descriptor. -/
theorem clone_from_frame (os : OS) (t r : File) (h : t ≠ r) :
    (clone_from_pair (t, r) os).2.1.2 = r ∧
    (clone_from_pair (t, r) os).2.1.1 =
      { descriptor := (dup (close os t.descriptor) r.descriptor).2 } := by
  exact ⟨rfl, rfl⟩

/-- Witness for C10 on two distinct files with open descriptors 3 and 5. -/
theorem clone_from_frame_witness :
    (clone_from_pair (File.mk 3, File.mk 5) (OS.mk [3, 5] 6)).2.1.2 = File.mk 5 ∧
    (clone_from_pair (File.mk 3, File.mk 5) (OS.mk [3, 5] 6)).2.1.1 =
      { descriptor := (dup (close (OS.mk [3, 5] 6) 3) 5).2 } :=
  clone_from_frame (OS.mk [3, 5] 6) (File.mk 3) (File.mk 5) (by decide)
